import Mathlib

/-!
# SIH Submission Monitor: the view controller of `frontend/src/App.js`

A shallow embedding of the React component `App`: its four `useState` cells,
the two asynchronous handlers `fetchData` and `handleRefresh`, and the part of
the JSX that decides what is shown.  The outcome of each HTTP call is an input
of the model, so every handler is a total function of the state before the call
and of that outcome.
-/

namespace SihMonitor

/-! ## JavaScript values -/

/-- JavaScript values that can flow through the component: `undefined`, and what
a parsed JSON body can hold.  Numbers are the integers (a count is an integer);
an object is its list of own properties, looked up from the front. -/
inductive JsVal where
  | undefined : JsVal
  | null : JsVal
  | bool (b : Bool) : JsVal
  | num (n : Int) : JsVal
  | str (s : String) : JsVal
  | arr (items : List JsVal) : JsVal
  | obj (fields : List (String × JsVal)) : JsVal

namespace JsVal

/-- JavaScript truthiness, the test applied by `&&`, `||`, `? :` and `if`:
`undefined`, `null`, `false`, `0` and the empty string are falsy. -/
def truthy : JsVal → Bool
  | undefined => false
  | null => false
  | bool b => b
  | num n => n != 0
  | str s => s != ""
  | arr _ => true
  | obj _ => true

/-- The test `v === null`. -/
def isNull : JsVal → Bool
  | null => true
  | _ => false

/-- The test `v === undefined`. -/
def isUndefined : JsVal → Bool
  | undefined => true
  | _ => false

/-- The test `v === lit` for a string literal `lit`. -/
def strictEqStr : JsVal → String → Bool
  | str s, lit => s == lit
  | _, _ => false

/-- Own-property lookup in a property list. -/
def lookupField : List (String × JsVal) → String → JsVal
  | [], _ => undefined
  | (k, v) :: rest, key => if k == key then v else lookupField rest key

/-- Property read `v.key`, for the property names App.js reads (`success`,
`data`, `count`, `error`, `status`, `problem_id`), none of which exists on the
prototypes of strings, numbers, booleans or arrays.  Reading a property of
`undefined` or `null` throws a TypeError: the result is `none`. -/
def member : JsVal → String → Option JsVal
  | undefined, _ => none
  | null, _ => none
  | obj fields, key => some (lookupField fields key)
  | _, _ => some undefined

/-- Optional chaining `v?.key`: `undefined` when `v` is `undefined` or `null`,
the property read otherwise.  It never throws. -/
def optMember : JsVal → String → JsVal
  | undefined, _ => undefined
  | null, _ => undefined
  | obj fields, key => lookupField fields key
  | _, _ => undefined

end JsVal

open JsVal

/-! ## State -/

/-- The four `useState` cells of `App` (lines 11-14).  `error` is only ever set
to `null` or to a string literal. -/
structure ViewState where
  data : JsVal
  loading : Bool
  refreshing : Bool
  error : Option String

/-- The initial values given to `useState` (lines 11-14). -/
def mountState : ViewState :=
  { data := .null, loading := true, refreshing := false, error := none }

/-- How an awaited axios call settles: the promise resolves with a response
whose `data` is the body, or it rejects with some reason. -/
inductive HttpResult where
  | resolved (body : JsVal) : HttpResult
  | rejected (reason : JsVal) : HttpResult

/-- String literal of line 30. -/
def loadFailedMsg : String := "Failed to load data. Please try again later."

/-- String literal of line 46. -/
def refreshUnsuccessfulMsg : String := "Failed to refresh data. Please try again."

/-- String literal of line 50. -/
def refreshFailedMsg : String := "Failed to refresh data. Please try again later."

/-! ## fetchData (lines 22-34) -/

/-- The part of `fetchData` that runs before the `await` (lines 24-26):
`setLoading(true); setError(null)`, then the GET is issued. -/
def fetchDataStart (s : ViewState) : ViewState :=
  { s with loading := true, error := none }

/-- The part of `fetchData` that runs once the GET has settled (lines 27-33).
Resolved: `setData(response.data)`.  Rejected: the `catch` block logs and sets
the fixed message.  In both cases `finally` runs `setLoading(false)`. -/
def fetchDataSettle (s : ViewState) (r : HttpResult) : ViewState :=
  let afterTryCatch : ViewState :=
    match r with
    | .resolved body => { s with data := body }
    | .rejected _ => { s with error := some loadFailedMsg }
  { afterTryCatch with loading := false }

/-- A whole run of `fetchData` whose GET settles as `r`. -/
def fetchData (s : ViewState) (r : HttpResult) : ViewState :=
  fetchDataSettle (fetchDataStart s) r

/-! ## handleRefresh (lines 37-54) -/

/-- The part of `handleRefresh` that runs before the `await` (lines 39-41):
`setRefreshing(true); setError(null)`, then the POST is issued. -/
def handleRefreshStart (s : ViewState) : ViewState :=
  { s with refreshing := true, error := none }

/-- The rest of the `try` block (lines 41-47) once the POST has settled: `none`
when an exception reaches the `catch` block (the awaited promise rejected, or a
property of a `null`/`undefined` body was read).  No setter runs before a point
that can throw, so a thrown exception leaves the state as it was. -/
def handleRefreshTry (s : ViewState) (r : HttpResult) : Option ViewState :=
  match r with
  | .rejected _ => none
  | .resolved body =>
    match member body "success" with
    | none => none
    | some success =>
      if truthy success then
        match member body "data" with
        | none => none
        | some d => some { s with data := d }
      else
        some { s with error := some refreshUnsuccessfulMsg }

/-- The part of `handleRefresh` that runs once the POST has settled (lines
41-53): the `try` block, the `catch` block (line 50) when it threw, and the
`finally` block `setRefreshing(false)`. -/
def handleRefreshSettle (s : ViewState) (r : HttpResult) : ViewState :=
  let afterTryCatch : ViewState :=
    match handleRefreshTry s r with
    | some s1 => s1
    | none => { s with error := some refreshFailedMsg }
  { afterTryCatch with refreshing := false }

/-- A whole run of `handleRefresh` whose POST settles as `r`. -/
def handleRefresh (s : ViewState) (r : HttpResult) : ViewState :=
  handleRefreshSettle (handleRefreshStart s) r

/-! ## Render model (lines 62-139) -/

/-- The expression of line 96:
`data?.count !== null && data?.count !== undefined ? data?.count : 'N/A'`. -/
def countDisplay (data : JsVal) : JsVal :=
  if !(isNull (optMember data "count")) && !(isUndefined (optMember data "count")) then
    optMember data "count"
  else
    .str "N/A"

/-- The expression of line 107: `data?.problem_id || 'N/A'`. -/
def problemIdDisplay (data : JsVal) : JsVal :=
  if truthy (optMember data "problem_id") then optMember data "problem_id" else .str "N/A"

/-- What the JSX of `App` shows, as values of the expressions placed in it.
The fields of the data section are `none`/`false` while the spinner is shown. -/
structure RenderModel where
  /-- Line 71: the danger alert and its text. -/
  banner : Option String
  /-- Lines 73-77: the spinner with "Loading data...". -/
  spinner : Bool
  /-- Lines 80-92: the warning alert and the value shown in it. -/
  warning : Option JsVal
  /-- Line 96: the value shown as the count. -/
  count : Option JsVal
  /-- Lines 100-102: the "Blocked" badge. -/
  badge : Bool
  /-- Line 107: the value shown as the problem id. -/
  problemId : Option JsVal
  /-- Line 121: `disabled` of the refresh button. -/
  buttonDisabled : Bool
  /-- Lines 123-128: the label of the refresh button. -/
  buttonLabel : String

/-- The JSX returned by `App` (lines 62-139).  Line 71 is `error && <Alert>`;
the data section is the `false` branch of `loading ? ... : ...`; inside it the
warning is `data?.error && ...` and the badge is `data?.status === 'blocked' &&
...`.  Two parts are left out: the note of lines 84-90, where `<hr />` and `<p>`
stand side by side inside the parentheses, which is not well-formed JSX, and
the date of line 108, which is locale dependent. -/
def render (s : ViewState) : RenderModel :=
  { banner :=
      match s.error with
      | some msg => if msg != "" then some msg else none
      | none => none
    spinner := s.loading
    warning :=
      if s.loading then none
      else if truthy (optMember s.data "error") then some (optMember s.data "error")
      else none
    count := if s.loading then none else some (countDisplay s.data)
    badge := if s.loading then false else strictEqStr (optMember s.data "status") "blocked"
    problemId := if s.loading then none else some (problemIdDisplay s.data)
    buttonDisabled := s.refreshing || s.loading
    buttonLabel := if s.refreshing then "Refreshing..." else "Refresh Now" }

/-! ## The component with its requests in flight -/

/-- The component together with the number of requests it has issued that have
not settled yet.  `view` holds the state cells as the setters have left them;
`rendered` is the state from which the JSX on screen was last computed, so the
`disabled` prop of the button on screen is that of `rendered`. -/
structure System where
  view : ViewState
  rendered : ViewState
  getsInFlight : Nat
  postsInFlight : Nat

/-- What can happen to a mounted component: React renders the current state,
the user clicks the refresh button, or a request in flight settles. -/
inductive Event where
  | rerender : Event
  | clickRefresh : Event
  | getSettles (r : HttpResult) : Event
  | postSettles (r : HttpResult) : Event

/-- Mounting: the first render is of the `useState` initial values, then the
effect of lines 17-19 starts `fetchData`, which issues the GET. -/
def mountSystem : System :=
  { view := fetchDataStart mountState, rendered := mountState,
    getsInFlight := 1, postsInFlight := 0 }

/-- A call of `handleRefresh` up to its `await` (lines 37-41).  The function
tests neither `loading` nor `refreshing`: it sets `refreshing`, clears `error`
and issues one POST. -/
def invokeHandleRefresh (sys : System) : System :=
  { sys with view := handleRefreshStart sys.view, postsInFlight := sys.postsInFlight + 1 }

/-- One event.  A click reaches `onClick={handleRefresh}` (line 120) only when
the button on screen is not `disabled={refreshing || loading}` (line 121).  A
settle event with no such request in flight does nothing. -/
def step (sys : System) : Event → System
  | .rerender => { sys with rendered := sys.view }
  | .clickRefresh =>
    if (render sys.rendered).buttonDisabled then sys else invokeHandleRefresh sys
  | .getSettles r =>
    if sys.getsInFlight = 0 then sys
    else { sys with view := fetchDataSettle sys.view r, getsInFlight := sys.getsInFlight - 1 }
  | .postSettles r =>
    if sys.postsInFlight = 0 then sys
    else { sys with view := handleRefreshSettle sys.view r, postsInFlight := sys.postsInFlight - 1 }

/-- A sequence of events, in order. -/
def run (sys : System) : List Event → System
  | [] => sys
  | e :: es => run (step sys e) es

/-- Every click of the sequence meets a button whose `disabled` prop is the one
the current state gives: no click comes between a setter call and the render
that shows its effect on the button. -/
def clicksMeetCurrentButton (sys : System) : List Event → Bool
  | [] => true
  | .clickRefresh :: es =>
    ((render sys.rendered).buttonDisabled == (render sys.view).buttonDisabled) &&
      clicksMeetCurrentButton (step sys .clickRefresh) es
  | .rerender :: es => clicksMeetCurrentButton (step sys .rerender) es
  | .getSettles r :: es => clicksMeetCurrentButton (step sys (.getSettles r)) es
  | .postSettles r :: es => clicksMeetCurrentButton (step sys (.postSettles r)) es

/-! ## Invariants of the mounted component -/

/-- While the component lives, a POST is in flight exactly when `refreshing`
is set, and there is never more than that one. -/
def PostsMatchFlag (sys : System) : Prop :=
  sys.postsInFlight = if sys.view.refreshing then 1 else 0

/-- The values `setError` is ever called with (lines 25, 30, 40, 46, 50). -/
def ErrorIsKnown (s : ViewState) : Prop :=
  s.error = none ∨ s.error = some loadFailedMsg ∨
    s.error = some refreshUnsuccessfulMsg ∨ s.error = some refreshFailedMsg

theorem postsMatchFlag_mount : PostsMatchFlag mountSystem := rfl

theorem postsMatchFlag_click (sys : System) (h : PostsMatchFlag sys)
    (hb : (render sys.rendered).buttonDisabled = (render sys.view).buttonDisabled) :
    PostsMatchFlag (step sys .clickRefresh) := by
  unfold PostsMatchFlag at h ⊢
  by_cases hd : (render sys.rendered).buttonDisabled = true
  · simpa [step, hd] using h
  · have hr : sys.view.refreshing = false := by
      rw [hb] at hd
      cases hrf : sys.view.refreshing <;> simp_all [render]
    simp [step, hd, invokeHandleRefresh, handleRefreshStart]
    simpa [hr] using h

theorem postsMatchFlag_rerender (sys : System) (h : PostsMatchFlag sys) :
    PostsMatchFlag (step sys .rerender) := h

theorem postsMatchFlag_getSettles (sys : System) (r : HttpResult) (h : PostsMatchFlag sys) :
    PostsMatchFlag (step sys (.getSettles r)) := by
  unfold PostsMatchFlag at h ⊢
  by_cases hg : sys.getsInFlight = 0
  · simpa [step, hg] using h
  · cases r <;> simpa [step, hg, fetchDataSettle] using h

theorem postsMatchFlag_postSettles (sys : System) (r : HttpResult) (h : PostsMatchFlag sys) :
    PostsMatchFlag (step sys (.postSettles r)) := by
  unfold PostsMatchFlag at h ⊢
  by_cases hp : sys.postsInFlight = 0
  · simpa [step, hp] using h
  · have hr : sys.view.refreshing = true := by
      cases hrf : sys.view.refreshing
      · simp [hrf] at h; exact absurd h hp
      · rfl
    simp [step, hp, handleRefreshSettle]
    simp [hr] at h
    omega

theorem postsMatchFlag_run (evs : List Event) (sys : System) (h : PostsMatchFlag sys)
    (hc : clicksMeetCurrentButton sys evs = true) : PostsMatchFlag (run sys evs) := by
  induction evs generalizing sys with
  | nil => exact h
  | cons e es ih =>
    cases e with
    | rerender => exact ih _ (postsMatchFlag_rerender sys h) hc
    | clickRefresh =>
      simp only [clicksMeetCurrentButton, Bool.and_eq_true, beq_iff_eq] at hc
      exact ih _ (postsMatchFlag_click sys h hc.1) hc.2
    | getSettles r => exact ih _ (postsMatchFlag_getSettles sys r h) hc
    | postSettles r => exact ih _ (postsMatchFlag_postSettles sys r h) hc

theorem errorIsKnown_fetchDataSettle (s : ViewState) (r : HttpResult) (h : ErrorIsKnown s) :
    ErrorIsKnown (fetchDataSettle s r) := by
  cases r with
  | resolved body => exact h
  | rejected reason => exact Or.inr (Or.inl rfl)

theorem errorIsKnown_handleRefreshSettle (s : ViewState) (r : HttpResult) (h : ErrorIsKnown s) :
    ErrorIsKnown (handleRefreshSettle s r) := by
  cases r with
  | rejected reason => exact Or.inr (Or.inr (Or.inr rfl))
  | resolved body =>
    cases hs : member body "success" with
    | none => simp [handleRefreshSettle, handleRefreshTry, hs, ErrorIsKnown]
    | some success =>
      by_cases ht : truthy success = true
      · cases hd : member body "data" with
        | none => simp [handleRefreshSettle, handleRefreshTry, hs, ht, hd, ErrorIsKnown]
        | some d =>
          simpa [handleRefreshSettle, handleRefreshTry, hs, ht, hd, ErrorIsKnown] using h
      · simp [handleRefreshSettle, handleRefreshTry, hs, ht, ErrorIsKnown]

theorem errorIsKnown_step (sys : System) (e : Event)
    (h : ErrorIsKnown sys.view ∧ ErrorIsKnown sys.rendered) :
    ErrorIsKnown (step sys e).view ∧ ErrorIsKnown (step sys e).rendered := by
  cases e with
  | rerender => exact ⟨h.1, h.1⟩
  | clickRefresh =>
    by_cases hd : (render sys.rendered).buttonDisabled = true
    · simpa [step, hd] using h
    · refine ⟨?_, ?_⟩
      · simp [step, hd, invokeHandleRefresh, handleRefreshStart, ErrorIsKnown]
      · simpa [step, hd, invokeHandleRefresh] using h.2
  | getSettles r =>
    by_cases hg : sys.getsInFlight = 0
    · simpa [step, hg] using h
    · refine ⟨?_, ?_⟩
      · simpa [step, hg] using errorIsKnown_fetchDataSettle sys.view r h.1
      · simpa [step, hg] using h.2
  | postSettles r =>
    by_cases hp : sys.postsInFlight = 0
    · simpa [step, hp] using h
    · refine ⟨?_, ?_⟩
      · simpa [step, hp] using errorIsKnown_handleRefreshSettle sys.view r h.1
      · simpa [step, hp] using h.2

theorem errorIsKnown_run (evs : List Event) (sys : System)
    (h : ErrorIsKnown sys.view ∧ ErrorIsKnown sys.rendered) :
    ErrorIsKnown (run sys evs).view ∧ ErrorIsKnown (run sys evs).rendered := by
  induction evs generalizing sys with
  | nil => exact h
  | cons e es ih => exact ih (step sys e) (errorIsKnown_step sys e h)

theorem banner_eq_error_of_known (s : ViewState) (h : ErrorIsKnown s) :
    (render s).banner = s.error := by
  rcases h with h | h | h | h <;>
    simp [render, h, loadFailedMsg, refreshUnsuccessfulMsg, refreshFailedMsg]

theorem optMember_of_member (v : JsVal) (key : String) (c : JsVal)
    (h : member v key = some c) : optMember v key = c := by
  cases v <;> simp_all [member, optMember]

theorem strictEqStr_iff (v : JsVal) (lit : String) :
    strictEqStr v lit = true ↔ v = .str lit := by
  cases v <;> simp [strictEqStr]

theorem countDisplay_of_value (data c : JsVal) (h : optMember data "count" = c)
    (hn : c ≠ .null) (hu : c ≠ .undefined) : countDisplay data = c := by
  cases c <;> simp_all [countDisplay, isNull, isUndefined]

theorem countDisplay_of_missing (data : JsVal)
    (h : optMember data "count" = .null ∨ optMember data "count" = .undefined) :
    countDisplay data = .str "N/A" := by
  rcases h with h | h <;> simp [countDisplay, h, isNull, isUndefined]

/-! ## Results -/

/-- C1: for every body `S` with which `GET /api/count` resolves, `fetchData` run
from the mount state (`loading = true`, `data = null`, `error = null`,
`refreshing = false`) ends with `loading = false`, `data = S` and
`error = null` (and `refreshing` still `false`). -/
theorem fetchData_resolved_from_mount (S : JsVal) :
    mountState = { data := .null, loading := true, refreshing := false, error := none } ∧
    (fetchData mountState (.resolved S)).loading = false ∧
    (fetchData mountState (.resolved S)).data = S ∧
    (fetchData mountState (.resolved S)).error = none ∧
    (fetchData mountState (.resolved S)).refreshing = false :=
  ⟨rfl, rfl, rfl, rfl, rfl⟩

/-- C2: for every prior state and every refresh response whose body is
`{success: true, data: S}` (possibly followed by further properties), after
`handleRefresh` the state has `data = S`, `error = null` and
`refreshing = false`. -/
theorem handleRefresh_success (s : ViewState) (S : JsVal) (rest : List (String × JsVal)) :
    (handleRefresh s (.resolved (.obj (("success", .bool true) :: ("data", S) :: rest)))).data = S ∧
    (handleRefresh s (.resolved (.obj (("success", .bool true) :: ("data", S) :: rest)))).error = none ∧
    (handleRefresh s (.resolved (.obj (("success", .bool true) :: ("data", S) :: rest)))).refreshing
      = false := by
  simp [handleRefresh, handleRefreshSettle, handleRefreshTry, handleRefreshStart, member,
    lookupField, truthy]

/-- C3: for every prior state and every refresh response whose body is
`{success: false}` (possibly followed by further properties), after
`handleRefresh` the state has `data` as before the call, `error` equal to
"Failed to refresh data. Please try again." and `refreshing = false`. -/
theorem handleRefresh_unsuccessful (s : ViewState) (rest : List (String × JsVal)) :
    (handleRefresh s (.resolved (.obj (("success", .bool false) :: rest)))).data = s.data ∧
    (handleRefresh s (.resolved (.obj (("success", .bool false) :: rest)))).error
      = some "Failed to refresh data. Please try again." ∧
    (handleRefresh s (.resolved (.obj (("success", .bool false) :: rest)))).refreshing = false := by
  simp [handleRefresh, handleRefreshSettle, handleRefreshTry, handleRefreshStart, member,
    lookupField, truthy, refreshUnsuccessfulMsg]

/-- C4: for every prior state, when the POST rejects (whatever the reason),
after `handleRefresh` the state has `data` as before the call, `error` equal to
"Failed to refresh data. Please try again later.", a message different from the
one set for `success: false`, and `refreshing = false`. -/
theorem handleRefresh_rejected (s : ViewState) (reason : JsVal) :
    (handleRefresh s (.rejected reason)).data = s.data ∧
    (handleRefresh s (.rejected reason)).error
      = some "Failed to refresh data. Please try again later." ∧
    (handleRefresh s (.rejected reason)).error ≠ some refreshUnsuccessfulMsg ∧
    (handleRefresh s (.rejected reason)).refreshing = false := by
  refine ⟨rfl, rfl, ?_, rfl⟩
  simp [handleRefresh, handleRefreshSettle, handleRefreshTry, refreshFailedMsg,
    refreshUnsuccessfulMsg]

/-- C5: when `GET /api/count` rejects (whatever the reason), `fetchData` run
from the mount state ends with `loading = false`, `data` still `null` and
`error` equal to "Failed to load data. Please try again later.". -/
theorem fetchData_rejected_from_mount (reason : JsVal) :
    (fetchData mountState (.rejected reason)).loading = false ∧
    (fetchData mountState (.rejected reason)).data = .null ∧
    (fetchData mountState (.rejected reason)).error
      = some "Failed to load data. Please try again later." :=
  ⟨rfl, rfl, rfl⟩

/-- C6 as stated fails: `handleRefresh` has no check of its own.  Once the
initial GET has resolved and the result is on screen, a click starts a refresh
(`refreshing = true`); a second call of the handler in that state, before the
button is rendered anew, issues a second POST, so two are in flight. -/
theorem refresh_unguarded_counterexample :
    (run mountSystem
      [.getSettles (.resolved .null), .rerender, .clickRefresh]).view.refreshing = true ∧
    (run mountSystem
      [.getSettles (.resolved .null), .rerender, .clickRefresh]).postsInFlight = 1 ∧
    (invokeHandleRefresh (run mountSystem
      [.getSettles (.resolved .null), .rerender, .clickRefresh])).postsInFlight = 2 ∧
    (run mountSystem
      [.getSettles (.resolved .null), .rerender, .clickRefresh, .clickRefresh]).postsInFlight
      = 2 :=
  ⟨rfl, rfl, rfl, rfl⟩

/-- C6, amended: the gate is the refresh button, not `handleRefresh`.  The
button rendered from a state with `loading = true` or `refreshing = true` is
disabled, and a click on it changes nothing and issues no POST; a click on a
button rendered from a state with both flags off calls `handleRefresh`; a call
of `handleRefresh` always sets `refreshing` and issues one POST, whatever the
flags are; and along every sequence of events in which each click meets a
button rendered from the current flags, at most one POST is in flight. -/
theorem refresh_gated_by_button :
    (∀ sys : System, sys.rendered.loading = true ∨ sys.rendered.refreshing = true →
      (render sys.rendered).buttonDisabled = true ∧ step sys .clickRefresh = sys) ∧
    (∀ sys : System, sys.rendered.loading = false → sys.rendered.refreshing = false →
      step sys .clickRefresh = invokeHandleRefresh sys) ∧
    (∀ sys : System,
      (invokeHandleRefresh sys).postsInFlight = sys.postsInFlight + 1 ∧
      (invokeHandleRefresh sys).view.refreshing = true) ∧
    (∀ evs : List Event, clicksMeetCurrentButton mountSystem evs = true →
      (run mountSystem evs).postsInFlight ≤ 1) := by
  refine ⟨?_, ?_, ?_, ?_⟩
  · intro sys h
    rcases h with h | h <;> simp [step, render, h]
  · intro sys hl hr
    simp [step, render, hl, hr]
  · intro sys
    exact ⟨rfl, rfl⟩
  · intro evs hc
    have h := postsMatchFlag_run evs mountSystem postsMatchFlag_mount hc
    unfold PostsMatchFlag at h
    split at h <;> omega

/-- Witness for C6: with a render between the two clicks, the second click
meets a disabled button and one POST stays in flight. -/
theorem refresh_gated_by_button_witness :
    clicksMeetCurrentButton mountSystem
      [.getSettles (.resolved .null), .rerender, .clickRefresh, .rerender, .clickRefresh]
      = true ∧
    (run mountSystem
      [.getSettles (.resolved .null), .rerender, .clickRefresh, .rerender,
       .clickRefresh]).postsInFlight ≤ 1 ∧
    step (run mountSystem [.getSettles (.resolved .null), .rerender, .clickRefresh, .rerender])
      .clickRefresh
      = run mountSystem [.getSettles (.resolved .null), .rerender, .clickRefresh, .rerender] :=
  ⟨rfl,
   refresh_gated_by_button.2.2.2
     [.getSettles (.resolved .null), .rerender, .clickRefresh, .rerender, .clickRefresh] rfl,
   (refresh_gated_by_button.1
     (run mountSystem [.getSettles (.resolved .null), .rerender, .clickRefresh, .rerender])
     (Or.inr rfl)).2⟩

/-- C7 as stated fails: a GET that resolves with the string body "maintenance",
which is no Snapshot, does not leave `data` null with the load-failure message
in `error`. -/
theorem fetchData_malformed_body_counterexample :
    ¬ ((fetchData mountState (.resolved (.str "maintenance"))).data = .null ∧
       (fetchData mountState (.resolved (.str "maintenance"))).error
         = some "Failed to load data. Please try again later.") := by
  simp [fetchData, fetchDataSettle, fetchDataStart]

/-- C7, amended: `fetchData` does not inspect the body.  For every body with
which the GET resolves, well-formed Snapshot or not, `data` becomes that body,
`error` stays `null` and `loading` becomes `false`; the load-failure message is
set exactly when the GET rejects, and `data` is then left `null`. -/
theorem fetchData_fails_only_on_rejection :
    (∀ body : JsVal,
      (fetchData mountState (.resolved body)).data = body ∧
      (fetchData mountState (.resolved body)).error = none ∧
      (fetchData mountState (.resolved body)).loading = false) ∧
    (∀ r : HttpResult,
      (fetchData mountState r).error = some loadFailedMsg ↔ ∃ reason, r = .rejected reason) ∧
    (∀ reason : JsVal, (fetchData mountState (.rejected reason)).data = .null) := by
  refine ⟨fun body => ⟨rfl, rfl, rfl⟩, ?_, fun reason => rfl⟩
  intro r
  cases r <;> simp [fetchData, fetchDataSettle, fetchDataStart]

/-- C8: in a state with `loading = false`, the count shown is `data.count`
whenever that is neither `null` nor `undefined` (a count of 0 is shown as 0),
and is the string "N/A" when `data.count` is `null` or `undefined` and when
`data` itself is `null` (or `undefined`). -/
theorem count_rendered (s : ViewState) (h : s.loading = false) :
    (∀ c : JsVal, member s.data "count" = some c → c ≠ .null → c ≠ .undefined →
      (render s).count = some c) ∧
    (member s.data "count" = some (.num 0) → (render s).count = some (.num 0)) ∧
    (member s.data "count" = some .null ∨ member s.data "count" = some .undefined →
      (render s).count = some (.str "N/A")) ∧
    (s.data = .null ∨ s.data = .undefined → (render s).count = some (.str "N/A")) := by
  have hc : (render s).count = some (countDisplay s.data) := by simp [render, h]
  refine ⟨?_, ?_, ?_, ?_⟩
  · intro c hm hn hu
    rw [hc, countDisplay_of_value s.data c (optMember_of_member _ _ _ hm) hn hu]
  · intro hm
    rw [hc, countDisplay_of_value s.data (.num 0) (optMember_of_member _ _ _ hm)
      (by simp) (by simp)]
  · intro hm
    rw [hc, countDisplay_of_missing]
    rcases hm with hm | hm
    · exact Or.inl (optMember_of_member _ _ _ hm)
    · exact Or.inr (optMember_of_member _ _ _ hm)
  · intro hd
    rw [hc, countDisplay_of_missing]
    rcases hd with hd | hd <;> simp [hd, optMember]

/-- Witness for C8: a snapshot whose count is 0 is shown as 0, not as "N/A". -/
theorem count_rendered_witness :
    (render { data := .obj [("count", .num 0), ("problem_id", .str "P7")], loading := false,
              refreshing := false, error := none }).count = some (.num 0) :=
  (count_rendered { data := .obj [("count", .num 0), ("problem_id", .str "P7")],
                    loading := false, refreshing := false, error := none } rfl).2.1 rfl

/-- C9 as stated fails: with `loading = false` and a snapshot whose `error`
property is present and is the empty string, no warning block is shown. -/
theorem warning_needs_truthy_error_counterexample :
    ({ data := .obj [("count", .num 3), ("error", .str "")], loading := false,
       refreshing := false, error := none } : ViewState).loading = false ∧
    member (.obj [("count", .num 3), ("error", .str "")]) "error" = some (.str "") ∧
    (render { data := .obj [("count", .num 3), ("error", .str "")], loading := false,
              refreshing := false, error := none }).warning = none :=
  ⟨rfl, rfl, rfl⟩

/-- C9, amended: the two error displays are independent.  The banner is shown
exactly when the state's `error` is a non-empty message, with that message, and
in every state the mounted component can reach it equals `error`; it does not
depend on `loading` or `data`.  The warning block is shown exactly when
`loading = false` and `data.error` is truthy, with that value, and does not
depend on the top-level `error`.  The badge is shown exactly when
`loading = false` and `data.status` is "blocked".  With both errors set and
`loading = false`, both displays are shown.  Nothing is said of the note of
lines 84-90. -/
theorem error_displays_independent (s : ViewState) :
    ((render s).banner.isSome = true ↔ ∃ msg, s.error = some msg ∧ msg ≠ "") ∧
    (∀ msg, (render s).banner = some msg → s.error = some msg) ∧
    (∀ evs : List Event,
      (render (run mountSystem evs).view).banner = (run mountSystem evs).view.error ∧
      (render (run mountSystem evs).rendered).banner = (run mountSystem evs).rendered.error) ∧
    (∀ (d : JsVal) (l r : Bool),
      (render { s with data := d, loading := l, refreshing := r }).banner = (render s).banner) ∧
    ((render s).warning.isSome = true ↔
      s.loading = false ∧ truthy (optMember s.data "error") = true) ∧
    (∀ v, (render s).warning = some v → v = optMember s.data "error") ∧
    (∀ (e : Option String) (r : Bool),
      (render { s with error := e, refreshing := r }).warning = (render s).warning) ∧
    ((render s).badge = true ↔
      s.loading = false ∧ optMember s.data "status" = .str "blocked") ∧
    (s.loading = false → (∃ msg, s.error = some msg ∧ msg ≠ "") →
      truthy (optMember s.data "error") = true →
      (render s).banner = s.error ∧ (render s).warning = some (optMember s.data "error")) := by
  have hw : (render s).warning.isSome = true ↔
      s.loading = false ∧ truthy (optMember s.data "error") = true := by
    cases hl : s.loading <;> cases ht : truthy (optMember s.data "error") <;>
      simp [render, hl, ht]
  refine ⟨?_, ?_, ?_, ?_, hw, ?_, ?_, ?_, ?_⟩
  · cases he : s.error with
    | none => simp [render, he]
    | some msg => by_cases hm : msg = "" <;> simp [render, he, hm]
  · intro msg hb
    cases he : s.error with
    | none => simp [render, he] at hb
    | some m =>
      by_cases hm : m = ""
      · simp [render, he, hm] at hb
      · simp [render, he, hm] at hb
        rw [hb]
  · intro evs
    have hk := errorIsKnown_run evs mountSystem ⟨Or.inl rfl, Or.inl rfl⟩
    exact ⟨banner_eq_error_of_known _ hk.1, banner_eq_error_of_known _ hk.2⟩
  · intro d l r
    rfl
  · intro v hv
    cases hl : s.loading <;> cases ht : truthy (optMember s.data "error") <;>
      simp [render, hl, ht] at hv
    exact hv.symm
  · intro e r
    rfl
  · rw [← strictEqStr_iff]
    cases hl : s.loading <;> simp [render, hl]
  · intro hl he ht
    obtain ⟨msg, he, hm⟩ := he
    simp [render, hl, he, hm, ht]

/-- Witness for C9: with the refresh-failure message in `error` and a blocked
snapshot carrying its own error, the banner and the warning block are both
shown. -/
theorem error_displays_independent_witness :
    (render { data := .obj [("count", .null), ("error", .str "site blocked"),
                            ("status", .str "blocked")],
              loading := false, refreshing := false,
              error := some refreshFailedMsg }).banner = some refreshFailedMsg ∧
    (render { data := .obj [("count", .null), ("error", .str "site blocked"),
                            ("status", .str "blocked")],
              loading := false, refreshing := false,
              error := some refreshFailedMsg }).warning = some (.str "site blocked") :=
  (error_displays_independent
    { data := .obj [("count", .null), ("error", .str "site blocked"),
                    ("status", .str "blocked")],
      loading := false, refreshing := false, error := some refreshFailedMsg }).2.2.2.2.2.2.2.2
    rfl ⟨refreshFailedMsg, rfl, by decide⟩ (by decide)

/-- C10: for every prior state and every refresh response whose body has a
truthy `success` and no `data` property, `handleRefresh` sets `data` to
`undefined`, whatever snapshot was held before, leaves `error` null and sets
`refreshing` back to `false`; the count is then shown as "N/A". -/
theorem handleRefresh_truthy_without_data (s : ViewState) (body success : JsVal)
    (hs : member body "success" = some success) (ht : truthy success = true)
    (hd : member body "data" = some .undefined) :
    (handleRefresh s (.resolved body)).data = .undefined ∧
    (handleRefresh s (.resolved body)).error = none ∧
    (handleRefresh s (.resolved body)).refreshing = false ∧
    countDisplay (handleRefresh s (.resolved body)).data = .str "N/A" ∧
    (s.loading = false →
      (render (handleRefresh s (.resolved body))).count = some (.str "N/A")) := by
  have hr : handleRefresh s (.resolved body)
      = { data := .undefined, loading := s.loading, refreshing := false, error := none } := by
    simp [handleRefresh, handleRefreshSettle, handleRefreshTry, handleRefreshStart, hs, ht, hd]
  rw [hr]
  refine ⟨rfl, rfl, rfl, rfl, ?_⟩
  intro hl
  simp [render, hl, countDisplay, optMember, isNull, isUndefined]

/-- Witness for C10: a displayed count of 42 is replaced by "N/A" after a
refresh answered with `{success: true}`. -/
theorem handleRefresh_truthy_without_data_witness :
    (render { data := .obj [("count", .num 42)], loading := false, refreshing := false,
              error := none }).count = some (.num 42) ∧
    (handleRefresh { data := .obj [("count", .num 42)], loading := false, refreshing := false,
                     error := none }
      (.resolved (.obj [("success", .bool true)]))).data = .undefined ∧
    (render (handleRefresh { data := .obj [("count", .num 42)], loading := false,
                             refreshing := false, error := none }
      (.resolved (.obj [("success", .bool true)])))).count = some (.str "N/A") :=
  ⟨rfl,
   (handleRefresh_truthy_without_data
      { data := .obj [("count", .num 42)], loading := false, refreshing := false, error := none }
      (.obj [("success", .bool true)]) (.bool true) rfl rfl rfl).1,
   (handleRefresh_truthy_without_data
      { data := .obj [("count", .num 42)], loading := false, refreshing := false, error := none }
      (.obj [("success", .bool true)]) (.bool true) rfl rfl rfl).2.2.2.2 rfl⟩

end SihMonitor
